import Mathlib

/-!
Shallow embedding of `src/index.tsx`, a single-page image-generation tool:
a prompt plus two rendering options is sent to a remote image-generation
API, the result is displayed, and a local history of past generations is
kept in the browser's key/value store.

The embedding models the module-level mutable variables as fields of an
explicit `AppState`, the browser's `localStorage` as a partial map from
strings to strings, the single awaited network call as an `ApiOutcome`
input to the orchestrator, and observable side effects (network request,
opening the external key-selection dialog, focusing the manual key input,
triggering a download) as an emitted list of `Event`s.
-/

namespace Imagen

/-- The three image-size tiers offered by the size selector
(`'1K' | '2K' | '4K'`). -/
inductive ImgSize where
  | s1K
  | s2K
  | s4K
deriving DecidableEq, Repr

/-- The five aspect choices offered by the selector
(`'1:1' | '3:4' | '4:3' | '9:16' | '16:9'`). -/
inductive Aspect where
  | a1x1
  | a3x4
  | a4x3
  | a9x16
  | a16x9
deriving DecidableEq, Repr

/-- One persisted history item: `{ url, prompt, timestamp }` as pushed by
`addImageToHistory` (`timestamp` is `Date.now()`, a natural number of
milliseconds). -/
structure HistoryEntry where
  url : String
  prompt : String
  timestamp : Nat
deriving DecidableEq, Repr

/-- Trim of a character list: leading and trailing whitespace removed.
Models JavaScript `String.prototype.trim`. -/
def trimChars (cs : List Char) : List Char :=
  ((cs.dropWhile Char.isWhitespace).reverse.dropWhile Char.isWhitespace).reverse

/-- String-level trim, used for `prompt.trim()` and `userApiKey.trim()`. -/
def strTrim (s : String) : String :=
  String.mk (trimChars s.data)

/-- JavaScript `haystack.includes(needle)` at the character-list level. -/
def subOf (needle : List Char) : List Char → Bool
  | [] => needle.isEmpty
  | c :: t => needle.isPrefixOf (c :: t) || subOf needle t

/-- JavaScript `String.prototype.includes`. -/
def strIncludes (hay needle : String) : Bool :=
  subOf needle.data hay.data

/-- JavaScript `String.prototype.toLowerCase` (ASCII, as used by the error
classifier for the `permission denied` check). -/
def strLower (s : String) : String :=
  String.mk (s.data.map Char.toLower)

/-! ## Persistence adapter: `localStorage` and the JSON codec

`saveHistory` stores `JSON.stringify(imageHistory)` under the key
`imagen_image_history`; `loadHistory` reads it back with `JSON.parse`.
The codec below models `JSON.stringify`/`JSON.parse` restricted to the
shape the code stores: an array of `{"url":s,"prompt":s,"timestamp":n}`
objects, with the string escapes `JSON.stringify` produces for quotes,
backslashes and common control characters. -/

/-- The browser's key/value store: a partial map from keys to strings. -/
def localStorage : Type := String → Option String

/-- `localStorage.setItem`. -/
def setItem (st : localStorage) (k v : String) : localStorage :=
  fun k2 => if k2 = k then some v else st k2

/-- `localStorage.getItem` (`none` models the `null` result). -/
def getItem (st : localStorage) (k : String) : Option String :=
  st k

/-- The storage key `imagen_image_history`. -/
def IMAGE_HISTORY_KEY : String := "imagen_image_history"

/-- Escape of a single character inside a JSON string literal. -/
def escChar (c : Char) : List Char :=
  if c = '"' then ['\\', '"']
  else if c = '\\' then ['\\', '\\']
  else if c = '\n' then ['\\', 'n']
  else if c = '\t' then ['\\', 't']
  else if c = '\r' then ['\\', 'r']
  else if c = '\x08' then ['\\', 'b']
  else if c = '\x0c' then ['\\', 'f']
  else [c]

/-- Escape of a whole string body. -/
def escStr : List Char → List Char
  | [] => []
  | c :: cs => escChar c ++ escStr cs

/-- Decode of the character following a backslash in a JSON string. -/
def unescChar (c : Char) : Option Char :=
  if c = '"' then some '"'
  else if c = '\\' then some '\\'
  else if c = 'n' then some '\n'
  else if c = 't' then some '\t'
  else if c = 'r' then some '\r'
  else if c = 'b' then some '\x08'
  else if c = 'f' then some '\x0c'
  else none

/-- Parse the body of a JSON string up to and including its closing
quote; returns the decoded body and the remaining input. -/
def parseStrBody : List Char → Option (List Char × List Char)
  | [] => none
  | c :: rest =>
    if c = '"' then some ([], rest)
    else if c = '\\' then
      match rest with
      | [] => none
      | e :: rest2 =>
        match unescChar e, parseStrBody rest2 with
        | some d, some (s, r) => some (d :: s, r)
        | _, _ => none
    else
      match parseStrBody rest with
      | some (s, r) => some (c :: s, r)
      | none => none

/-- Decimal digit to its character. -/
def digitToChar (d : Nat) : Char :=
  if d = 0 then '0' else if d = 1 then '1' else if d = 2 then '2'
  else if d = 3 then '3' else if d = 4 then '4' else if d = 5 then '5'
  else if d = 6 then '6' else if d = 7 then '7' else if d = 8 then '8'
  else '9'

/-- Digits of a positive number, most significant first; the fuel bounds
the recursion depth and any fuel of at least `n` is enough. -/
def natCharsAux : Nat → Nat → List Char
  | 0, _ => []
  | Nat.succ fuel, n =>
    if n = 0 then [] else natCharsAux fuel (n / 10) ++ [digitToChar (n % 10)]

/-- Decimal rendering of a natural number, as `JSON.stringify` renders the
integer `timestamp`. -/
def natChars (n : Nat) : List Char :=
  if n = 0 then ['0'] else natCharsAux n n

/-- Consume a maximal run of decimal digits, folding them into a value. -/
def parseNatAux : List Char → Nat → Nat × List Char
  | [], acc => (acc, [])
  | c :: rest, acc =>
    if c.isDigit then parseNatAux rest (10 * acc + (c.toNat - 48))
    else (acc, c :: rest)

/-- Parse a decimal natural number (at least one digit). -/
def parseNatL (cs : List Char) : Option (Nat × List Char) :=
  match cs with
  | [] => none
  | c :: _ => if c.isDigit then some (parseNatAux cs 0) else none

/-- A quoted JSON string literal. -/
def qstr (s : String) : List Char :=
  '"' :: (escStr s.data ++ ['"'])

/-- `JSON.stringify` of one history object, keys in insertion order
`url`, `prompt`, `timestamp`. -/
def entryChars (e : HistoryEntry) : List Char :=
  "\x7b\"url\":".data ++ qstr e.url ++ ",\"prompt\":".data ++ qstr e.prompt
    ++ ",\"timestamp\":".data ++ natChars e.timestamp ++ ['\x7d']

/-- The comma-separated element list of the JSON array. -/
def itemsChars : List HistoryEntry → List Char
  | [] => []
  | [e] => entryChars e
  | e :: es => entryChars e ++ ',' :: itemsChars es

/-- `JSON.stringify(imageHistory)`. -/
def historyChars (h : List HistoryEntry) : List Char :=
  '[' :: (itemsChars h ++ [']'])

/-- Strip an expected literal from the front of the input. -/
def dropLit : List Char → List Char → Option (List Char)
  | [], cs => some cs
  | _ :: _, [] => none
  | l :: ls, c :: cs => if c = l then dropLit ls cs else none

/-- Parse one `{"url":…,"prompt":…,"timestamp":…}` object. -/
def parseEntry (cs : List Char) : Option (HistoryEntry × List Char) :=
  match dropLit "\x7b\"url\":\"".data cs with
  | none => none
  | some cs1 =>
    match parseStrBody cs1 with
    | none => none
    | some (url, cs2) =>
      match dropLit ",\"prompt\":\"".data cs2 with
      | none => none
      | some cs3 =>
        match parseStrBody cs3 with
        | none => none
        | some (pr, cs4) =>
          match dropLit ",\"timestamp\":".data cs4 with
          | none => none
          | some cs5 =>
            match parseNatL cs5 with
            | none => none
            | some (ts, cs6) =>
              match cs6 with
              | [] => none
              | c :: cs7 =>
                if c = '\x7d' then some (⟨String.mk url, String.mk pr, ts⟩, cs7)
                else none

/-- Parse the comma-separated elements of a non-empty JSON array followed
by the closing bracket; the fuel argument bounds the number of elements. -/
def parseItems : Nat → List Char → Option (List HistoryEntry)
  | 0, _ => none
  | Nat.succ fuel, cs =>
    match parseEntry cs with
    | none => none
    | some (e, rest) =>
      match rest with
      | [] => none
      | c :: rest2 =>
        if c = ',' then
          match parseItems fuel rest2 with
          | none => none
          | some es => some (e :: es)
        else if c = ']' then
          match rest2 with
          | [] => some [e]
          | _ :: _ => none
        else none

/-- `JSON.parse` restricted to the history shape. -/
def parseHistoryChars (cs : List Char) : Option (List HistoryEntry) :=
  if cs = ['[', ']'] then some []
  else
    match cs with
    | [] => none
    | c :: rest => if c = '[' then parseItems rest.length rest else none

/-- `JSON.stringify(imageHistory)` at the string level. -/
def stringifyHistory (h : List HistoryEntry) : String :=
  String.mk (historyChars h)

/-- `JSON.parse` of a stored history string. -/
def parseHistoryStr (s : String) : Option (List HistoryEntry) :=
  parseHistoryChars s.data

/-- `saveHistory`: writes the JSON encoding of the history under
`IMAGE_HISTORY_KEY` (a storage failure is caught and logged, so the
store itself is modelled as always accepting the write). -/
def saveHistory (h : List HistoryEntry) (store : localStorage) : localStorage :=
  setItem store IMAGE_HISTORY_KEY (stringifyHistory h)

/-- `loadHistory` in a fresh session (`imageHistory` starts as `[]`):
a missing or empty stored value leaves the initial empty list, and a
`JSON.parse` failure is caught and resets the history to `[]`. -/
def loadHistory (store : localStorage) : List HistoryEntry :=
  match getItem store IMAGE_HISTORY_KEY with
  | none => []
  | some s =>
    if s = "" then []
    else
      match parseHistoryStr s with
      | some h => h
      | none => []

/-- Whether the input starts with a decimal digit. -/
def leadDigit : List Char → Bool
  | [] => false
  | c :: _ => c.isDigit

/-! ## Application state and the generation orchestrator

Module-level mutable variables and the relevant DOM element properties
become fields of `AppState`; the awaited network call becomes an
`ApiOutcome` passed in; observable side effects become `Event`s. -/

/-- The page state: the script's module-level variables together with the
DOM properties the script reads or writes. -/
structure AppState where
  prompt : String
  imageSize : ImgSize
  aspect : Aspect
  downloadLink : Option String
  imageHistory : List HistoryEntry
  userApiKey : String
  useCustomApiKey : Bool
  statusText : String
  statusIsError : Bool
  outputImageSrc : String
  outputImageVisible : Bool
  downloadButtonVisible : Bool
  generateDisabled : Bool
  promptDisabled : Bool
  sizeDisabled : Bool
  aspectDisabled : Bool
  downloadDisabled : Bool
  clearHistoryDisabled : Bool
  checkboxDisabled : Bool
  apiKeyInputDisabled : Bool
  spinnerVisible : Bool
  apiKeyFocused : Bool
  apiKeyHighlighted : Bool
deriving DecidableEq, Repr

/-- The hosting environment: the ambient `process.env.API_KEY` (absent is
`none`), whether `window.aistudio.openSelectKey` exists, and `Date.now()`. -/
structure Env where
  envApiKey : Option String
  aistudioAvailable : Bool
  now : Nat
deriving DecidableEq, Repr

/-- Outcome of the awaited `ai.models.generateImages` call: either the
response (whose `generatedImages` field may be absent) or a rejection
carrying the error message. -/
inductive ApiOutcome where
  | ok (generatedImages : Option (List String))
  | err (message : String)
deriving DecidableEq, Repr

/-- Observable side effects of a user action. -/
inductive Event where
  | apiRequest (prompt apiKey : String) (size : ImgSize) (ar : Aspect)
  | openKeyDialog
  | focusApiKeyInput
  | download (url filename : String)
deriving DecidableEq, Repr

/-- `showStatusError`: renders the message in the status line (red). -/
def showStatusError (st : AppState) (message : String) : AppState :=
  { st with statusText := message, statusIsError := true }

/-- `openApiKeyDialog`: opens the external key-selection flow when the
hosting environment provides it, otherwise shows the fallback status
message. The emitted event marks the call. -/
def openApiKeyDialog (env : Env) (st : AppState) : AppState × List Event :=
  if env.aistudioAvailable then (st, [Event.openKeyDialog])
  else
    (showStatusError st
      "API key selection is not available. Please configure the API_KEY environment variable.",
      [Event.openKeyDialog])

/-- `setControlsDisabled`: disables or re-enables every control; the
manual key input is enabled only when generation is idle and the
custom-key checkbox is checked; the busy spinner follows `disabled`. -/
def setControlsDisabled (st : AppState) (disabled : Bool) : AppState :=
  { st with
    generateDisabled := disabled
    promptDisabled := disabled
    sizeDisabled := disabled
    aspectDisabled := disabled
    downloadDisabled := disabled
    clearHistoryDisabled := disabled
    checkboxDisabled := disabled
    apiKeyInputDisabled := disabled || !st.useCustomApiKey
    spinnerVisible := disabled }

/-- `handleDownload`: triggers a browser save of the given URL under the
given filename (default `generated-image.jpeg` at the call sites). -/
def handleDownload (st : AppState) (url filename : String) : AppState × List Event :=
  if url ≠ "" then (st, [Event.download url filename])
  else (showStatusError st "No image available for download.", [])

/-- `addImageToHistory`: appends `{url, prompt, timestamp: Date.now()}`,
persists the whole list, re-renders. Defined in the source but never
called by any code path. -/
def addImageToHistory (st : AppState) (store : localStorage) (url promptText : String)
    (now : Nat) : AppState × localStorage :=
  let h := st.imageHistory ++ [⟨url, promptText, now⟩]
  ({ st with imageHistory := h }, saveHistory h store)

/-- `clearImageHistory`: empties the list, persists, re-renders. -/
def clearImageHistory (st : AppState) (store : localStorage) : AppState × localStorage :=
  ({ st with imageHistory := [] }, saveHistory [] store)

/-- One rendered history row: thumbnail URL, alt text, caption, and the
filename its download button uses. -/
structure RenderedItem where
  url : String
  altText : String
  promptText : String
  downloadFilename : String
deriving DecidableEq, Repr

def renderEntry (e : HistoryEntry) : RenderedItem :=
  ⟨e.url, e.prompt, e.prompt,
    "generated-image-" ++ toString e.timestamp ++ ".jpeg"⟩

/-- `renderImageHistory`: clears the container; when the history is empty
hides the section, otherwise shows it and emits one row per entry,
iterating from the last stored entry down to the first (reverse
chronological order). Returns the rendered rows and the section
visibility. -/
def renderImageHistory (h : List HistoryEntry) : List RenderedItem × Bool :=
  if h.isEmpty then ([], false)
  else (h.reverse.map renderEntry, true)

/-- Truthiness of `activeApiKey` in `if (!activeApiKey)`: JavaScript
treats both `undefined` and the empty string as falsy. -/
def optFalsy : Option String → Bool
  | none => true
  | some s => s = ""

/-- Key resolution at the top of `generate()` (src/index.tsx lines
298-308): the trimmed manual key when the checkbox is checked and the
trimmed text is non-empty, otherwise the ambient environment key; the
second component is `isUsingCustomKey`. -/
def resolveActiveKey (env : Env) (st : AppState) : Option String × Bool :=
  if st.useCustomApiKey && !(strTrim st.userApiKey == "") then
    (some (strTrim st.userApiKey), true)
  else
    (env.envApiKey, false)

/-- `generateImage`: issues the API request; on a response with at least
one image, displays the first image as a base64 data URL, shows the
download button and stores the download link; an absent or empty image
list, or a rejection, surfaces as a thrown error message (the third
component). -/
def generateImage (st : AppState) (apiKey : String) (api : ApiOutcome) :
    AppState × List Event × Option String :=
  let ev := [Event.apiRequest st.prompt apiKey st.imageSize st.aspect]
  match api with
  | .err m => (st, ev, some m)
  | .ok none =>
    (st, ev, some "No images were generated. The prompt may have been blocked.")
  | .ok (some []) =>
    (st, ev, some "No images were generated. The prompt may have been blocked.")
  | .ok (some (img :: _)) =>
    let imageUrl := "data:image/jpeg;base64," ++ img
    ({ st with
        outputImageSrc := imageUrl
        outputImageVisible := true
        downloadButtonVisible := true
        downloadLink := some imageUrl },
      ev, none)

/-- The `catch` block's classification of a failure message into the
user-facing message and the `shouldOpenDialog` decision. -/
def classifyGenError (errorMessage : String) (isUsingCustomKey : Bool) : String × Bool :=
  if strIncludes errorMessage "You exceeded your current quota" then
    ("Quota exceeded. Please check your billing details on Google AI Studio.", true)
  else if strIncludes errorMessage "Requested entity was not found." then
    ("Model not found. This can be caused by an invalid API key or permission issues. Please check your API key.",
      true)
  else if strIncludes errorMessage "API_KEY_INVALID"
      || strIncludes errorMessage "API key not valid"
      || strIncludes (strLower errorMessage) "permission denied" then
    (if isUsingCustomKey then
        "The custom API key you provided is invalid or lacks necessary permissions. Please check the key in the input field."
      else
        "The API key managed by AI Studio is invalid or lacks necessary permissions. Please use the \"Add your API Key\" button to select a valid key.",
      true)
  else ("Error: " ++ errorMessage, false)

/-- `generate()`: resolves the credential; with no credential shows the
`NoCredential` message and either opens the key dialog (ambient key
expected) or focuses and highlights the manual key input
(`isUsingCustomKey`); otherwise clears any highlight, resets the
displayed image and download link, disables the controls, awaits the
request, then handles success or classified failure; the `finally`
clause re-enables the controls on every exit path. -/
def generate (env : Env) (api : ApiOutcome) (st : AppState) : AppState × List Event :=
  let rk := resolveActiveKey env st
  let activeApiKey := rk.1
  let isUsingCustomKey := rk.2
  if optFalsy activeApiKey then
    let st1 := showStatusError st
      "No API key configured. Please enter your API key or use the \"Add your API Key\" button."
    if !isUsingCustomKey then
      openApiKeyDialog env st1
    else
      ({ st1 with apiKeyFocused := true, apiKeyHighlighted := true },
        [Event.focusApiKeyInput])
  else
    let st1 := { st with apiKeyHighlighted := false }
    let st2 := { st1 with
      statusText := "Generating image..."
      statusIsError := false
      outputImageVisible := false
      downloadButtonVisible := false
      downloadLink := none }
    let st3 := setControlsDisabled st2 true
    match generateImage st3 (activeApiKey.getD "") api with
    | (st4, evs, none) =>
      let st5 := { st4 with statusText := "Image generated successfully.", statusIsError := false }
      (setControlsDisabled st5 false, evs)
    | (st4, evs, some errorMessage) =>
      let cls := classifyGenError errorMessage isUsingCustomKey
      let st5 := showStatusError st4 cls.1
      if cls.2 && !isUsingCustomKey then
        let r := openApiKeyDialog env st5
        (setControlsDisabled r.1 false, evs ++ r.2)
      else if isUsingCustomKey then
        (setControlsDisabled
          { st5 with apiKeyFocused := true, apiKeyHighlighted := true } false,
          evs ++ [Event.focusApiKeyInput])
      else
        (setControlsDisabled st5 false, evs)

/-- The generate button's click listener: rejects a blank (trimmed)
prompt with a status message and no further effect, otherwise runs
`generate()`. -/
def generateButtonClick (env : Env) (api : ApiOutcome) (st : AppState) :
    AppState × List Event :=
  if strTrim st.prompt == "" then
    (showStatusError st "Please enter a prompt to generate an image.", [])
  else
    generate env api st

/-- The download button's click listener. -/
def downloadButtonClick (st : AppState) : AppState × List Event :=
  match st.downloadLink with
  | some url => handleDownload st url "generated-image.jpeg"
  | none => (showStatusError st "No image available for download.", [])

/-- The page state right after the initial load with empty storage:
defaults of the module-level variables, manual key input disabled. -/
def initState : AppState where
  prompt := ""
  imageSize := .s1K
  aspect := .a1x1
  downloadLink := none
  imageHistory := []
  userApiKey := ""
  useCustomApiKey := false
  statusText := ""
  statusIsError := false
  outputImageSrc := ""
  outputImageVisible := false
  downloadButtonVisible := false
  generateDisabled := false
  promptDisabled := false
  sizeDisabled := false
  aspectDisabled := false
  downloadDisabled := false
  clearHistoryDisabled := false
  checkboxDisabled := false
  apiKeyInputDisabled := true
  spinnerVisible := false
  apiKeyFocused := false
  apiKeyHighlighted := false

/-- Whether an API outcome makes `generateImage` throw: a rejected call,
an absent `generatedImages` field, or an empty image list. -/
def apiFails : ApiOutcome → Bool
  | .err _ => true
  | .ok none => true
  | .ok (some []) => true
  | .ok (some (_ :: _)) => false

/-! ## Correctness of the JSON codec -/

/-- Parsing a string body undoes escaping, consuming the closing quote. -/
theorem parseStrBody_escStr (s rest : List Char) :
    parseStrBody (escStr s ++ '"' :: rest) = some (s, rest) := by
  induction s with
  | nil =>
    show parseStrBody ('"' :: rest) = _
    rw [parseStrBody.eq_def]; simp
  | cons c cs ih =>
    show parseStrBody ((escChar c ++ escStr cs) ++ '"' :: rest) = _
    rw [List.append_assoc]
    unfold escChar
    split_ifs with h1 h2 h3 h4 h5 h6 h7
    · subst h1
      simp only [List.cons_append, List.nil_append]
      rw [parseStrBody.eq_def]; simp [unescChar, ih]
    · subst h2
      simp only [List.cons_append, List.nil_append]
      rw [parseStrBody.eq_def]; simp [unescChar, ih]
    · subst h3
      simp only [List.cons_append, List.nil_append]
      rw [parseStrBody.eq_def]; simp [unescChar, ih]
    · subst h4
      simp only [List.cons_append, List.nil_append]
      rw [parseStrBody.eq_def]; simp [unescChar, ih]
    · subst h5
      simp only [List.cons_append, List.nil_append]
      rw [parseStrBody.eq_def]; simp [unescChar, ih]
    · subst h6
      simp only [List.cons_append, List.nil_append]
      rw [parseStrBody.eq_def]; simp [unescChar, ih]
    · subst h7
      simp only [List.cons_append, List.nil_append]
      rw [parseStrBody.eq_def]; simp [unescChar, ih]
    · simp only [List.cons_append, List.nil_append]
      rw [parseStrBody.eq_def]
      simp only [if_neg h1, if_neg h2, ih]

theorem digitToChar_isDigit (d : Nat) : (digitToChar d).isDigit = true := by
  unfold digitToChar
  split_ifs <;> decide

theorem digitToChar_toNat (d : Nat) (h : d < 10) : (digitToChar d).toNat - 48 = d := by
  interval_cases d <;> decide

/-- The digit scanner consumes exactly a run of digits when the remainder
does not begin with one. -/
theorem parseNatAux_append (ds rest : List Char) (hds : ∀ c ∈ ds, c.isDigit = true)
    (hrest : leadDigit rest = false) (acc : Nat) :
    parseNatAux (ds ++ rest) acc
      = (ds.foldl (fun a c => 10 * a + (c.toNat - 48)) acc, rest) := by
  induction ds generalizing acc with
  | nil =>
    simp only [List.nil_append, List.foldl_nil]
    cases rest with
    | nil => rfl
    | cons c t =>
      rw [parseNatAux.eq_def]
      simp only [leadDigit] at hrest
      simp [hrest]
  | cons c ds ih =>
    rw [List.cons_append, parseNatAux.eq_def]
    simp [hds c (by simp), ih (fun x hx => hds x (by simp [hx]))]

/-- Value of the digit fold over a most-significant-first digit list. -/
theorem foldl_digitToChar (L : List Nat) (hL : ∀ d ∈ L, d < 10) (acc : Nat) :
    ((L.map digitToChar).reverse).foldl (fun a c => 10 * a + (c.toNat - 48)) acc
      = acc * 10 ^ L.length + Nat.ofDigits 10 L := by
  induction L generalizing acc with
  | nil => simp [Nat.ofDigits]
  | cons d L ih =>
    simp only [List.map_cons, List.reverse_cons, List.foldl_append, List.foldl_cons,
      List.foldl_nil, List.length_cons]
    rw [ih (fun x hx => hL x (List.mem_cons_of_mem _ hx)),
      digitToChar_toNat d (hL d (List.mem_cons_self _ _)), Nat.ofDigits_cons]
    ring

/-- With enough fuel, the digit printer agrees with `Nat.digits`. -/
theorem natCharsAux_eq (fuel : Nat) : ∀ n : Nat, n ≤ fuel →
    natCharsAux fuel n = ((Nat.digits 10 n).map digitToChar).reverse := by
  induction fuel with
  | zero =>
    intro n hn
    have h0 : n = 0 := by omega
    subst h0
    simp [natCharsAux]
  | succ fuel ih =>
    intro n hn
    rw [natCharsAux.eq_def]
    by_cases h0 : n = 0
    · subst h0; simp
    · have hdiv : n / 10 < n := Nat.div_lt_self (Nat.pos_of_ne_zero h0) (by norm_num)
      simp only [if_neg h0]
      rw [ih (n / 10) (by omega),
        Nat.digits_def' (by norm_num : (1 : Nat) < 10) (Nat.pos_of_ne_zero h0)]
      simp

theorem natChars_eq (n : Nat) :
    natChars n = if n = 0 then ['0'] else ((Nat.digits 10 n).map digitToChar).reverse := by
  unfold natChars
  by_cases h0 : n = 0
  · simp [h0]
  · simp [h0, natCharsAux_eq n n le_rfl]

theorem natChars_digits (n : Nat) : ∀ c ∈ natChars n, c.isDigit = true := by
  rw [natChars_eq]
  by_cases h0 : n = 0
  · simp only [if_pos h0]
    intro c hc
    simp at hc
    subst hc
    decide
  · simp only [if_neg h0, List.mem_reverse, List.mem_map]
    rintro c ⟨d, _, rfl⟩
    exact digitToChar_isDigit d

theorem natChars_ne_nil (n : Nat) : natChars n ≠ [] := by
  rw [natChars_eq]
  by_cases h0 : n = 0
  · simp [h0]
  · simp only [if_neg h0, ne_eq, List.reverse_eq_nil_iff, List.map_eq_nil_iff]
    exact Nat.digits_ne_nil_iff_ne_zero.mpr h0

/-- The number parser undoes the decimal printer. -/
theorem parseNatL_natChars (n : Nat) (rest : List Char) (hrest : leadDigit rest = false) :
    parseNatL (natChars n ++ rest) = some (n, rest) := by
  obtain ⟨c, cs, hcons⟩ : ∃ c cs, natChars n = c :: cs := by
    cases hh : natChars n with
    | nil => exact absurd hh (natChars_ne_nil n)
    | cons c cs => exact ⟨c, cs, rfl⟩
  have hc : c.isDigit = true :=
    natChars_digits n c (by rw [hcons]; exact List.mem_cons_self _ _)
  have hfold : (natChars n).foldl (fun a c => 10 * a + (c.toNat - 48)) 0 = n := by
    rw [natChars_eq]
    by_cases h0 : n = 0
    · simp only [if_pos h0, List.foldl_cons, List.foldl_nil]
      rw [h0]; decide
    · rw [if_neg h0,
        foldl_digitToChar _ (fun d hd => Nat.digits_lt_base (by norm_num) hd) 0]
      simp [Nat.ofDigits_digits]
  have haux := parseNatAux_append (natChars n) rest (natChars_digits n) hrest 0
  rw [hcons] at haux ⊢
  rw [List.cons_append, parseNatL.eq_def]
  simp only [hc, if_true]
  rw [← List.cons_append, haux]
  rw [hcons] at hfold
  rw [hfold]

/-- Stripping a literal prefix succeeds exactly on that prefix. -/
theorem dropLit_exact (pre : List Char) : ∀ cs, dropLit pre (pre ++ cs) = some cs := by
  induction pre with
  | nil => intro cs; rfl
  | cons c pre ih => intro cs; simp [dropLit, ih]

theorem dropLit_quote (A X : List Char) : dropLit (A ++ ['"']) (A ++ '"' :: X) = some X := by
  have h : A ++ '"' :: X = (A ++ ['"']) ++ X := by simp
  rw [h, dropLit_exact]

/-- The object parser undoes the object printer, for any continuation. -/
theorem parseEntry_entryChars (e : HistoryEntry) (rest : List Char) :
    parseEntry (entryChars e ++ rest) = some (e, rest) := by
  obtain ⟨url, pr, ts⟩ := e
  have h1 : entryChars ⟨url, pr, ts⟩ ++ rest =
      "\x7b\"url\":".data ++ '"' :: (escStr url.data ++ '"' ::
        (",\"prompt\":".data ++ '"' :: (escStr pr.data ++ '"' ::
          (",\"timestamp\":".data ++ (natChars ts ++ '\x7d' :: rest))))) := by
    unfold entryChars qstr
    simp [List.append_assoc]
  have hld : leadDigit ('\x7d' :: rest) = false := by
    simp [leadDigit]
  rw [h1]
  unfold parseEntry
  rw [show ("\x7b\"url\":\"".data : List Char) = "\x7b\"url\":".data ++ ['"'] from rfl,
    show (",\"prompt\":\"".data : List Char) = ",\"prompt\":".data ++ ['"'] from rfl]
  simp only [dropLit_quote, parseStrBody_escStr, dropLit_exact,
    parseNatL_natChars _ _ hld]
  rfl

/-- The printed element list is never empty for a non-empty history. -/
theorem entryChars_cons (e : HistoryEntry) :
    ∃ t, entryChars e = '\x7b' :: t := by
  unfold entryChars
  exact ⟨_, rfl⟩

theorem entryChars_length_pos (e : HistoryEntry) : 0 < (entryChars e).length := by
  obtain ⟨t, ht⟩ := entryChars_cons e
  rw [ht]
  simp

theorem itemsChars_length (es : List HistoryEntry) :
    es.length ≤ (itemsChars es).length + 1 := by
  induction es with
  | nil => simp
  | cons e es ih =>
    cases es with
    | nil => simp [itemsChars]
    | cons e2 es2 =>
      have he := entryChars_length_pos e
      rw [show itemsChars (e :: e2 :: es2) = entryChars e ++ ',' :: itemsChars (e2 :: es2)
        from rfl]
      simp only [List.length_cons, List.length_append] at ih ⊢
      omega

/-- The element parser undoes the element printer given enough fuel. -/
theorem parseItems_itemsChars : ∀ es : List HistoryEntry, es ≠ [] →
    ∀ fuel, es.length ≤ fuel → parseItems fuel (itemsChars es ++ [']']) = some es := by
  intro es
  induction es with
  | nil => intro hne; exact absurd rfl hne
  | cons e es ih =>
    intro _ fuel hfuel
    cases fuel with
    | zero => simp at hfuel
    | succ f =>
      cases es with
      | nil =>
        rw [show itemsChars [e] = entryChars e from rfl, parseItems.eq_def]
        simp [parseEntry_entryChars]
      | cons e2 es2 =>
        rw [show itemsChars (e :: e2 :: es2) = entryChars e ++ ',' :: itemsChars (e2 :: es2)
          from rfl]
        rw [List.append_assoc, List.cons_append, parseItems.eq_def]
        simp only [parseEntry_entryChars]
        have hrec := ih (by simp) f (by simp at hfuel ⊢; omega)
        simp [hrec]

/-- `JSON.parse` undoes `JSON.stringify` on every history value. -/
theorem parseHistoryChars_historyChars (h : List HistoryEntry) :
    parseHistoryChars (historyChars h) = some h := by
  cases h with
  | nil => rfl
  | cons e es =>
    have hne : itemsChars (e :: es) ≠ [] := by
      obtain ⟨t, ht⟩ := entryChars_cons e
      cases es with
      | nil => rw [show itemsChars [e] = entryChars e from rfl, ht]; simp
      | cons e2 es2 =>
        rw [show itemsChars (e :: e2 :: es2) = entryChars e ++ ',' :: itemsChars (e2 :: es2)
          from rfl, ht]
        simp
    have hcond : ¬(historyChars (e :: es) = ['[', ']']) := by
      unfold historyChars
      intro hcontra
      have h2 : itemsChars (e :: es) ++ [']'] = [']'] := by
        simpa using hcontra
      have h3 := congrArg List.length h2
      simp at h3
      exact hne h3
    rw [parseHistoryChars.eq_def]
    simp only [if_neg hcond]
    unfold historyChars
    simp only [if_pos rfl]
    refine parseItems_itemsChars (e :: es) (by simp) _ ?_
    have := itemsChars_length (e :: es)
    simp only [List.length_append, List.length_cons] at this ⊢
    omega

/-- A stored history string is never empty. -/
theorem stringifyHistory_ne_empty (h : List HistoryEntry) : stringifyHistory h ≠ "" := by
  unfold stringifyHistory historyChars
  intro hcontra
  have := congrArg String.data hcontra
  simp at this

/-- Round-trip at the string level. -/
theorem parseHistoryStr_stringifyHistory (h : List HistoryEntry) :
    parseHistoryStr (stringifyHistory h) = some h := by
  unfold parseHistoryStr stringifyHistory
  exact parseHistoryChars_historyChars h

/-! ## Claims -/

/-- C7: for every history sequence, `saveHistory` followed by
`loadHistory` in a fresh session reproduces the same ordered entries,
with url, prompt and timestamp all preserved. -/
theorem history_roundtrip (h : List HistoryEntry) (store : localStorage) :
    loadHistory (saveHistory h store) = h := by
  unfold loadHistory saveHistory getItem setItem
  simp only [if_true]
  rw [if_neg (stringifyHistory_ne_empty h), parseHistoryStr_stringifyHistory]

/-- C8: `setControlsDisabled false` sets the manual key input's disabled
state to the negation of the custom-key toggle rather than
unconditionally enabling it, so with the toggle off the input stays
disabled after the other controls are re-enabled. -/
theorem reenable_keeps_manual_input_disabled (st : AppState) :
    (setControlsDisabled st false).apiKeyInputDisabled = !st.useCustomApiKey := by
  simp [setControlsDisabled]

/-- C10: when the response carries several images only the first is
displayed and stored as the download target (the result coincides with
the response carrying the first image alone), and an absent or empty
image list raises the no-images-generated error. -/
theorem first_image_only (st : AppState) (key img : String) (more : List String) :
    generateImage st key (ApiOutcome.ok (some (img :: more)))
        = generateImage st key (ApiOutcome.ok (some [img]))
      ∧ (generateImage st key (ApiOutcome.ok (some (img :: more)))).1.outputImageSrc
          = "data:image/jpeg;base64," ++ img
      ∧ (generateImage st key (ApiOutcome.ok (some (img :: more)))).1.downloadLink
          = some ("data:image/jpeg;base64," ++ img)
      ∧ (generateImage st key (ApiOutcome.ok (some (img :: more)))).2.2 = none
      ∧ (generateImage st key (ApiOutcome.ok none)).2.2
          = some "No images were generated. The prompt may have been blocked."
      ∧ (generateImage st key (ApiOutcome.ok (some []))).2.2
          = some "No images were generated. The prompt may have been blocked." :=
  ⟨rfl, rfl, rfl, rfl, rfl, rfl⟩

/-- C3: a blank or whitespace-only prompt makes the generate click
produce no events at all (in particular no network request), show the
empty-prompt status message, and change nothing else in the state. -/
theorem blank_prompt_no_request (env : Env) (api : ApiOutcome) (st : AppState)
    (h : strTrim st.prompt = "") :
    generateButtonClick env api st
      = ({ st with
            statusText := "Please enter a prompt to generate an image."
            statusIsError := true }, []) := by
  unfold generateButtonClick
  rw [if_pos (by simp [h])]
  rfl

/-- Witness for C3 at the whitespace prompt `"  "`. -/
theorem blank_prompt_no_request_witness :
    strTrim (AppState.prompt { initState with prompt := "  " }) = ""
      ∧ generateButtonClick ⟨some "k", true, 0⟩ (ApiOutcome.err "e")
          { initState with prompt := "  " }
        = ({ initState with
              prompt := "  "
              statusText := "Please enter a prompt to generate an image."
              statusIsError := true }, []) :=
  ⟨by decide,
    blank_prompt_no_request ⟨some "k", true, 0⟩ (ApiOutcome.err "e")
      { initState with prompt := "  " } (by decide)⟩

/-- C1: at a successful generation (ambient key present, non-blank
prompt, API returns one image) the attempt reports success, yet the
history is left unchanged: no `HistoryEntry` is appended, because
`addImageToHistory` is never invoked from any code path, although the
comment at src/index.tsx:336 claims `generateImage` calls it. -/
theorem successful_generation_appends_no_history :
    (generate ⟨some "k", true, 99⟩ (ApiOutcome.ok (some ["bytes"]))
        { initState with prompt := "a cat" }).1.statusText
        = "Image generated successfully."
      ∧ (generate ⟨some "k", true, 99⟩ (ApiOutcome.ok (some ["bytes"]))
          { initState with prompt := "a cat" }).1.imageHistory
        = ({ initState with prompt := "a cat" } : AppState).imageHistory := by
  constructor <;> decide

/-- C2: with the manual-key toggle on, a blank manual key and no ambient
key, `generate()` shows the no-credential message but then opens the
external key-selection dialog and leaves the manual key input unfocused
and unhighlighted — because `isUsingCustomKey` is only set when the
trimmed manual key is non-empty, contradicting the claim and the
source's own comment at src/index.tsx:313-315. -/
theorem blank_manual_key_opens_dialog_not_focus :
    (generate ⟨none, true, 0⟩ (ApiOutcome.err "unused")
        { initState with useCustomApiKey := true, userApiKey := "   " }).2
        = [Event.openKeyDialog]
      ∧ (generate ⟨none, true, 0⟩ (ApiOutcome.err "unused")
          { initState with useCustomApiKey := true, userApiKey := "   " }).1.apiKeyHighlighted
        = false
      ∧ (generate ⟨none, true, 0⟩ (ApiOutcome.err "unused")
          { initState with useCustomApiKey := true, userApiKey := "   " }).1.apiKeyFocused
        = false
      ∧ (generate ⟨none, true, 0⟩ (ApiOutcome.err "unused")
          { initState with useCustomApiKey := true, userApiKey := "   " }).1.statusText
        = "No API key configured. Please enter your API key or use the \"Add your API Key\" button." := by
  refine ⟨by decide, by decide, by decide, by decide⟩

/-- C4 counterexample: with the toggle on and the manual key `" k "`
(non-blank after trimming), key resolution does not return that manual
key: it returns the trimmed text `"k"` instead. -/
theorem resolveActiveKey_trims_counterexample :
    ({ initState with useCustomApiKey := true, userApiKey := " k " } : AppState).useCustomApiKey
        = true
      ∧ strTrim ({ initState with useCustomApiKey := true, userApiKey := " k " } : AppState).userApiKey
        ≠ ""
      ∧ (resolveActiveKey ⟨some "amb", true, 0⟩
          { initState with useCustomApiKey := true, userApiKey := " k " }).1
        ≠ some ({ initState with useCustomApiKey := true, userApiKey := " k " } : AppState).userApiKey
      ∧ (resolveActiveKey ⟨some "amb", true, 0⟩
          { initState with useCustomApiKey := true, userApiKey := " k " })
        = (some "k", true) := by
  refine ⟨by decide, by decide, by decide, by decide⟩

/-- C4 (amended): with the toggle on and a manual key that is non-blank
after trimming, key resolution returns the trimmed manual key with
`usingManual = true`, never consulting the ambient key; with the toggle
off it returns the ambient key with `usingManual = false` regardless of
any manual key text present. -/
theorem resolveActiveKey_spec (env : Env) (st : AppState) :
    (st.useCustomApiKey = true → strTrim st.userApiKey ≠ "" →
        resolveActiveKey env st = (some (strTrim st.userApiKey), true))
      ∧ (st.useCustomApiKey = false →
        resolveActiveKey env st = (env.envApiKey, false)) := by
  constructor
  · intro h1 h2
    unfold resolveActiveKey
    simp [h1, h2]
  · intro h1
    unfold resolveActiveKey
    simp [h1]

/-- Witness for C4 at the manual key `" k "` and ambient key `"amb"`. -/
theorem resolveActiveKey_spec_witness :
    resolveActiveKey ⟨some "amb", true, 0⟩
        { initState with useCustomApiKey := true, userApiKey := " k " }
      = (some (strTrim " k "), true)
      ∧ resolveActiveKey ⟨some "amb", true, 0⟩ { initState with userApiKey := " k " }
      = (some "amb", false) :=
  ⟨(resolveActiveKey_spec ⟨some "amb", true, 0⟩
      { initState with useCustomApiKey := true, userApiKey := " k " }).1
    (by decide) (by decide),
   (resolveActiveKey_spec ⟨some "amb", true, 0⟩
      { initState with userApiKey := " k " }).2 (by decide)⟩

/-- Every run of `generate()` that reaches the request phase ends, on
every exit path, in `setControlsDisabled … false` applied to a state
whose toggle is unchanged; and on every failing outcome that state still
has the image hidden and the download link cleared. -/
theorem generate_requesting_shape (env : Env) (api : ApiOutcome) (st : AppState)
    (hk : optFalsy (resolveActiveKey env st).1 = false) :
    ∃ (inner : AppState) (evs : List Event),
      generate env api st = (setControlsDisabled inner false, evs)
        ∧ inner.useCustomApiKey = st.useCustomApiKey
        ∧ (apiFails api = true →
            inner.downloadLink = none ∧ inner.outputImageVisible = false
              ∧ inner.downloadButtonVisible = false) := by
  unfold generate
  simp only [hk, Bool.false_eq_true, if_false]
  cases api with
  | err m =>
    simp only [generateImage]
    split_ifs with h1 h2
    · unfold openApiKeyDialog
      split_ifs with h3
      · exact ⟨_, _, rfl, rfl, fun _ => ⟨rfl, rfl, rfl⟩⟩
      · exact ⟨_, _, rfl, rfl, fun _ => ⟨rfl, rfl, rfl⟩⟩
    · exact ⟨_, _, rfl, rfl, fun _ => ⟨rfl, rfl, rfl⟩⟩
    · exact ⟨_, _, rfl, rfl, fun _ => ⟨rfl, rfl, rfl⟩⟩
  | ok imgs =>
    cases imgs with
    | none =>
      simp only [generateImage]
      split_ifs with h1 h2
      · unfold openApiKeyDialog
        split_ifs with h3
        · exact ⟨_, _, rfl, rfl, fun _ => ⟨rfl, rfl, rfl⟩⟩
        · exact ⟨_, _, rfl, rfl, fun _ => ⟨rfl, rfl, rfl⟩⟩
      · exact ⟨_, _, rfl, rfl, fun _ => ⟨rfl, rfl, rfl⟩⟩
      · exact ⟨_, _, rfl, rfl, fun _ => ⟨rfl, rfl, rfl⟩⟩
    | some l =>
      cases l with
      | nil =>
        simp only [generateImage]
        split_ifs with h1 h2
        · unfold openApiKeyDialog
          split_ifs with h3
          · exact ⟨_, _, rfl, rfl, fun _ => ⟨rfl, rfl, rfl⟩⟩
          · exact ⟨_, _, rfl, rfl, fun _ => ⟨rfl, rfl, rfl⟩⟩
        · exact ⟨_, _, rfl, rfl, fun _ => ⟨rfl, rfl, rfl⟩⟩
        · exact ⟨_, _, rfl, rfl, fun _ => ⟨rfl, rfl, rfl⟩⟩
      | cons img more =>
        simp only [generateImage]
        exact ⟨_, _, rfl, rfl, fun hcon => by simp [apiFails] at hcon⟩

/-- C6: whenever `generate()` reaches the request phase (the resolved
credential is truthy), every exit path — success, classified failure or
unknown failure — re-enables every control, restores the manual key
input to its pre-request enablement `!useCustomApiKey`, and hides the
busy spinner. -/
theorem controls_reenabled_after_attempt (env : Env) (api : ApiOutcome) (st : AppState)
    (hk : optFalsy (resolveActiveKey env st).1 = false) :
    (generate env api st).1.generateDisabled = false
      ∧ (generate env api st).1.promptDisabled = false
      ∧ (generate env api st).1.sizeDisabled = false
      ∧ (generate env api st).1.aspectDisabled = false
      ∧ (generate env api st).1.downloadDisabled = false
      ∧ (generate env api st).1.clearHistoryDisabled = false
      ∧ (generate env api st).1.checkboxDisabled = false
      ∧ (generate env api st).1.spinnerVisible = false
      ∧ (generate env api st).1.apiKeyInputDisabled = !st.useCustomApiKey := by
  obtain ⟨inner, evs, hgen, hcust, -⟩ := generate_requesting_shape env api st hk
  rw [hgen]
  simp [setControlsDisabled, hcust]

/-- Witness for C6: a failing attempt with the ambient key still ends
with all controls enabled and the spinner hidden. -/
theorem controls_reenabled_after_attempt_witness :
    optFalsy (resolveActiveKey ⟨some "k", true, 0⟩ { initState with prompt := "p" }).1 = false
      ∧ (generate ⟨some "k", true, 0⟩ (ApiOutcome.err "boom")
          { initState with prompt := "p" }).1.generateDisabled = false
      ∧ (generate ⟨some "k", true, 0⟩ (ApiOutcome.err "boom")
          { initState with prompt := "p" }).1.spinnerVisible = false :=
  ⟨by decide,
    (controls_reenabled_after_attempt ⟨some "k", true, 0⟩ (ApiOutcome.err "boom")
      { initState with prompt := "p" } (by decide)).1,
    (controls_reenabled_after_attempt ⟨some "k", true, 0⟩ (ApiOutcome.err "boom")
      { initState with prompt := "p" } (by decide)).2.2.2.2.2.2.2.1⟩

/-- C9: any attempt that reaches the request phase and fails (rejection,
absent or empty image list) ends with the displayed image hidden, the
download button hidden and the stored download link cleared — even if a
previous generation had set them — so the download button then reports
that no image is available. -/
theorem failed_attempt_clears_download (env : Env) (api : ApiOutcome) (st : AppState)
    (hk : optFalsy (resolveActiveKey env st).1 = false)
    (hf : apiFails api = true) :
    (generate env api st).1.downloadLink = none
      ∧ (generate env api st).1.outputImageVisible = false
      ∧ (generate env api st).1.downloadButtonVisible = false
      ∧ downloadButtonClick (generate env api st).1
        = (showStatusError (generate env api st).1 "No image available for download.", []) := by
  obtain ⟨inner, evs, hgen, -, hfail⟩ := generate_requesting_shape env api st hk
  obtain ⟨hdl, hvis, hbtn⟩ := hfail hf
  have hdl2 : (generate env api st).1.downloadLink = none := by
    rw [hgen]; exact hdl
  refine ⟨hdl2, by rw [hgen]; exact hvis, by rw [hgen]; exact hbtn, ?_⟩
  unfold downloadButtonClick
  rw [hdl2]

/-- Witness for C9: after a failed attempt following an earlier success
(`downloadLink` initially set), the download button reports no image. -/
theorem failed_attempt_clears_download_witness :
    optFalsy (resolveActiveKey ⟨some "k", true, 7⟩
        { initState with prompt := "p", downloadLink := some "data:old" }).1 = false
      ∧ apiFails (ApiOutcome.ok (some [])) = true
      ∧ (generate ⟨some "k", true, 7⟩ (ApiOutcome.ok (some []))
          { initState with prompt := "p", downloadLink := some "data:old" }).1.downloadLink
        = none :=
  ⟨by decide, by decide,
    (failed_attempt_clears_download ⟨some "k", true, 7⟩ (ApiOutcome.ok (some []))
      { initState with prompt := "p", downloadLink := some "data:old" }
      (by decide) (by decide)).1⟩

/-- C5 counterexample: a quota-exceeded failure with the ambient key in
use, in an environment without the key-selection capability, ends with
the capability-unavailable message displayed, not the quota-exceeded
message (the dialog fallback overwrites the status line). -/
theorem quota_status_overwritten_counterexample :
    strIncludes "You exceeded your current quota" "You exceeded your current quota" = true
      ∧ optFalsy (resolveActiveKey ⟨some "k", false, 0⟩ { initState with prompt := "p" }).1
        = false
      ∧ (resolveActiveKey ⟨some "k", false, 0⟩ { initState with prompt := "p" }).2 = false
      ∧ (generate ⟨some "k", false, 0⟩ (ApiOutcome.err "You exceeded your current quota")
          { initState with prompt := "p" }).1.statusText
        = "API key selection is not available. Please configure the API_KEY environment variable." := by
  refine ⟨by decide, by decide, by decide, by decide⟩

/-- C5 (amended): a failure whose message contains the quota substring
maps to the quota-exceeded user message and triggers the external
key-selection flow exactly when the ambient key was in use — except
that when the flow is triggered but the capability is absent, the
status line ends up showing the capability-unavailable message instead;
with the manual key in use the input is focused and highlighted and the
flow is not triggered. -/
theorem quota_error_handling (env : Env) (st : AppState) (m : String)
    (hq : strIncludes m "You exceeded your current quota" = true)
    (hk : optFalsy (resolveActiveKey env st).1 = false) :
    (Event.openKeyDialog ∈ (generate env (ApiOutcome.err m) st).2
        ↔ (resolveActiveKey env st).2 = false)
      ∧ ((resolveActiveKey env st).2 = true →
          (generate env (ApiOutcome.err m) st).1.statusText
              = "Quota exceeded. Please check your billing details on Google AI Studio."
            ∧ (generate env (ApiOutcome.err m) st).1.apiKeyFocused = true
            ∧ (generate env (ApiOutcome.err m) st).1.apiKeyHighlighted = true)
      ∧ ((resolveActiveKey env st).2 = false → env.aistudioAvailable = true →
          (generate env (ApiOutcome.err m) st).1.statusText
            = "Quota exceeded. Please check your billing details on Google AI Studio.")
      ∧ ((resolveActiveKey env st).2 = false → env.aistudioAvailable = false →
          (generate env (ApiOutcome.err m) st).1.statusText
            = "API key selection is not available. Please configure the API_KEY environment variable.") := by
  unfold generate
  simp only [hk, Bool.false_eq_true, if_false]
  simp only [generateImage, classifyGenError, hq, if_true]
  cases hcust : (resolveActiveKey env st).2 with
  | false =>
    cases havail : env.aistudioAvailable with
    | false =>
      simp [openApiKeyDialog, havail, showStatusError, setControlsDisabled]
    | true =>
      simp [openApiKeyDialog, havail, showStatusError, setControlsDisabled]
  | true =>
    simp [openApiKeyDialog, showStatusError, setControlsDisabled]

/-- Witness for C5: with a failing manual key the quota message is shown
and the input is focused and highlighted. -/
theorem quota_error_handling_witness :
    (generate ⟨none, false, 0⟩ (ApiOutcome.err "You exceeded your current quota")
        { initState with useCustomApiKey := true, userApiKey := "mk" }).1.statusText
      = "Quota exceeded. Please check your billing details on Google AI Studio." :=
  ((quota_error_handling ⟨none, false, 0⟩
      { initState with useCustomApiKey := true, userApiKey := "mk" }
      "You exceeded your current quota" (by decide) (by decide)).2.1 (by decide)).1

end Imagen
